import Mathlib

/-!
Verification of the datagram transport core (`twisted/internet/udp.py`)
against its natural-language specification.

The Python module is shallowly embedded below.  Mutation of the `Port`
object becomes explicit state passing on a `Port` structure; the socket's
pending receive results (successive outcomes of `recvfrom`) and the
successive outcomes of `send`/`sendto` are passed in as lists; exceptions
raised by the Python code become explicit fields or `Option` results.
All definitions are executable.
-/

namespace TwistedUdp

/-- Modelled from the spec: the address validator
(`twisted.internet.abstract.isIPAddress` / `isIPv6Address`, not among the
sources at hand) is a pair of pure predicates classifying a host string as
an IPv4 literal, an IPv6 literal, or neither.  A host string is abstracted
by its classification: an IPv4 literal, an IPv6 literal, the broadcast
sentinel string, the empty string, or any other non-empty string
(a hostname).  The transport's dispatch only ever inspects these
categories. -/
inductive Host where
  | ipv4
  | ipv6
  | broadcast
  | empty
  | hostname
  deriving DecidableEq

/-- Modelled from the spec: `abstract.isIPAddress` — true exactly on IPv4
literals.  The broadcast sentinel, the empty string and hostnames are not
IPv4 literals. -/
def isIPAddress : Host → Bool
  | .ipv4 => true
  | _ => false

/-- Modelled from the spec: `abstract.isIPv6Address` — true exactly on
IPv6 literals. -/
def isIPv6Address : Host → Bool
  | .ipv6 => true
  | _ => false

-- `addr[0] == "<broadcast>"` in the source.
def isBroadcast : Host → Bool
  | .broadcast => true
  | _ => false

-- Python truthiness of the interface string (`elif self.interface:`):
-- true exactly for non-empty strings.
def hostNonempty : Host → Bool
  | .empty => false
  | _ => true

-- `socket.AF_INET` / `socket.AF_INET6`.
inductive Family where
  | afInet
  | afInet6
  deriving DecidableEq

-- POSIX errno values (Linux), as imported by the non-win32 branch of the
-- module (udp.py line 54).
def EAGAIN : Nat := 11
def EINTR : Nat := 4
def EWOULDBLOCK : Nat := 11
def ECONNREFUSED : Nat := 111
def EMSGSIZE : Nat := 90

-- udp.py line 56: socket errors that are temporary and can be ignored on
-- read.
def sockErrReadIgnore : List Nat := [EAGAIN, EINTR, EWOULDBLOCK]

-- udp.py line 57: socket errors that indicate connection refused.
def sockErrReadRefuse : List Nat := [ECONNREFUSED]

/-- The observable state of a `Port` object.  Fields mirror the Python
instance attributes; the deferred created by `stopListening` is modelled
by a fresh identifier (`d`, `nextDeferredId`) and the list of identifiers
that have been resolved (`resolved`, in resolution order).  Calls of
`protocol.doStop()` are counted, `reactor.callLater(0, connectionLost)`
increments the count of pending scheduled teardowns, and `hasSocket`
records whether the `socket` attribute is still present (it is deleted by
`connectionLost`). -/
structure Port where
  addressFamily : Family
  maxThroughput : Int
  maxPacketSize : Nat
  interface : Host
  connectedAddr : Option (Host × Nat)
  connected : Bool
  realPortNumber : Option Nat
  reading : Bool
  hasSocket : Bool
  d : Option Nat
  nextDeferredId : Nat
  resolved : List Nat
  doStopCount : Nat
  scheduledTeardowns : Nat
  osConnects : Nat
  deriving DecidableEq

/-- A datagram as returned by one successful `recvfrom` call: its length,
and whether the protocol's `datagramReceived` callback raises on it (the
protocol is an external parameter of the transport). -/
structure Datagram where
  len : Nat
  bad : Bool
  deriving DecidableEq

/-- The outcome of one `recvfrom` call on the socket: either a datagram or
an `OSError` with the given errno. -/
inductive RecvItem where
  | dgram (d : Datagram)
  | err (no : Nat)
  deriving DecidableEq

/-- The observable outcome of one `doRead` invocation: the datagrams
dispatched to `protocol.datagramReceived` in order, the number of
`log.err()` calls (protocol callbacks that raised), the number of
`protocol.connectionRefused()` notifications, the errno of a re-raised
fatal `OSError` (if any), and the receive outcomes still pending on the
socket when the invocation ends. -/
structure DoReadOut where
  dispatched : List Datagram
  logged : Nat
  refused : Nat
  fatal : Option Nat
  remaining : List RecvItem
  deriving DecidableEq

/-- udp.py lines 228-258, `Port.doRead`.  `read` is the accumulated byte
count of this invocation; the loop runs `while read < self.maxThroughput`.
An exhausted queue stands for a `recvfrom` that would block
(`EWOULDBLOCK`, which is in the ignore set, hence a plain return). -/
def doReadAux (connectedAddr : Bool) (maxThroughput : Int) :
    List RecvItem → Int → DoReadOut
  | [], _ =>
      { dispatched := [], logged := 0, refused := 0, fatal := none, remaining := [] }
  | item :: rest, read =>
      if read < maxThroughput then
        match item with
        | .err no =>
            if sockErrReadIgnore.contains no then
              { dispatched := [], logged := 0, refused := 0, fatal := none,
                remaining := rest }
            else if sockErrReadRefuse.contains no then
              { dispatched := [], logged := 0,
                refused := if connectedAddr then 1 else 0, fatal := none,
                remaining := rest }
            else
              { dispatched := [], logged := 0, refused := 0, fatal := some no,
                remaining := rest }
        | .dgram d =>
            let out := doReadAux connectedAddr maxThroughput rest (read + (d.len : Int))
            { out with dispatched := d :: out.dispatched,
                       logged := (if d.bad then 1 else 0) + out.logged }
      else
        { dispatched := [], logged := 0, refused := 0, fatal := none,
          remaining := item :: rest }

/-- One invocation of the read-readiness callback on a port, with the
given receive outcomes pending on the socket. -/
def doRead (p : Port) (queue : List RecvItem) : DoReadOut :=
  doReadAux p.connectedAddr.isSome p.maxThroughput queue 0

/-- The outcome of one OS-level `send`/`sendto` call. -/
inductive SendResult where
  | ok (n : Nat)
  | err (no : Nat)
  deriving DecidableEq

/-- Exceptions that `Port.write` can raise. -/
inductive WriteError where
  | invalidAddress (host : Host)
  | messageLength
  | osError (no : Nat)
  deriving DecidableEq

/-- The observable outcome of one `Port.write` call: the value returned
(bytes accepted, or `none` for Python `None`), whether
`protocol.connectionRefused()` was invoked, the exception raised (if any),
and how many OS-level send calls were attempted. -/
structure WriteOut where
  ret : Option Nat
  refusedNotified : Bool
  raised : Option WriteError
  osCalls : Nat
  deriving DecidableEq

/-- udp.py lines 274-285 and 306-320: the `try: send / except OSError`
block of `Port.write`, together with the EINTR retry (`return
self.write(datagram[, addr])`, which re-enters the identical send loop).
`attempts` lists the outcomes of successive OS send calls; `calls` counts
the send calls already made.  `none` means the modelled attempt list was
exhausted while the code still wanted to retry. -/
def sendAttempts (connectedMode : Bool) : List SendResult → Nat → Option WriteOut
  | [], _ => none
  | .ok n :: _, calls =>
      some { ret := some n, refusedNotified := false, raised := none,
             osCalls := calls + 1 }
  | .err no :: rest, calls =>
      if no = EINTR then
        sendAttempts connectedMode rest (calls + 1)
      else if no = EMSGSIZE then
        some { ret := none, refusedNotified := false, raised := some .messageLength,
               osCalls := calls + 1 }
      else if no = ECONNREFUSED then
        if connectedMode then
          some { ret := none, refusedNotified := true, raised := none,
                 osCalls := calls + 1 }
        else
          some { ret := none, refusedNotified := false, raised := none,
                 osCalls := calls + 1 }
      else
        some { ret := none, refusedNotified := false, raised := some (.osError no),
               osCalls := calls + 1 }

/-- udp.py lines 260-320, `Port.write`.  In connected mode the `assert
addr in (None, self._connectedAddr)` is modelled by returning `none`
(assertion failure, outside the specified behaviour) when violated, as is
`assert addr != None` in unconnected mode.  In unconnected mode the three
address-validation checks run, in source order, before any OS send is
attempted. -/
def write (p : Port) (addr : Option (Host × Nat)) (attempts : List SendResult) :
    Option WriteOut :=
  match p.connectedAddr with
  | some peer =>
      if addr = none ∨ addr = some peer then sendAttempts true attempts 0
      else none
  | none =>
      match addr with
      | none => none
      | some a =>
          if ¬isIPAddress a.1 ∧ ¬isIPv6Address a.1 ∧ ¬isBroadcast a.1 then
            some { ret := none, refusedNotified := false,
                   raised := some (.invalidAddress a.1), osCalls := 0 }
          else if (isIPAddress a.1 ∨ isBroadcast a.1) ∧ p.addressFamily = Family.afInet6 then
            some { ret := none, refusedNotified := false,
                   raised := some (.invalidAddress a.1), osCalls := 0 }
          else if isIPv6Address a.1 ∧ p.addressFamily = Family.afInet then
            some { ret := none, refusedNotified := false,
                   raised := some (.invalidAddress a.1), osCalls := 0 }
          else
            sendAttempts false attempts 0

/-- Errors raised by `Port.connect`: `RuntimeError` on reconnection,
`InvalidAddressError` on a non-literal host. -/
inductive ConnectError where
  | alreadyConnected
  | invalidAddress
  deriving DecidableEq

/-- udp.py lines 337-348, `Port.connect`.  Both checks raise before any
attribute is mutated, so on error the port is returned unchanged.
`osConnects` counts OS-level `socket.connect` calls. -/
def connect (p : Port) (host : Host) (port : Nat) : Port × Option ConnectError :=
  if p.connectedAddr.isSome then
    (p, some .alreadyConnected)
  else if ¬isIPAddress host ∧ ¬isIPv6Address host then
    (p, some .invalidAddress)
  else
    ({ p with connectedAddr := some (host, port), osConnects := p.osConnects + 1 },
     none)

/-- udp.py lines 394-405, `Port._setAddressFamily`, run at construction.
Returns the address family assigned to `self.addressFamily` (whose class
default is `AF_INET`, kept when the interface string is empty), or `none`
when construction fails with `InvalidAddressError`. -/
def setAddressFamily (interface : Host) : Option Family :=
  if isIPv6Address interface then some Family.afInet6
  else if isIPAddress interface then some Family.afInet
  else if hostNonempty interface then none
  else some Family.afInet

-- `abstract.FileDescriptor.stopReading` via `BasePort`: deregisters the
-- descriptor from read-readiness.
def stopReading (p : Port) : Port := { p with reading := false }

/-- udp.py lines 350-353, `Port._loseConnection`: stop reading, and if
still `connected` (meaning: listening) schedule `connectionLost` via
`reactor.callLater(0, ...)`. -/
def loseConnection (p : Port) : Port :=
  let q := stopReading p
  if q.connected then { q with scheduledTeardowns := q.scheduledTeardowns + 1 }
  else q

/-- udp.py lines 355-361, `Port.stopListening`: if `connected`, create a
fresh `Deferred`, store it in `self.d` and return it; otherwise return
`None`; either way run `_loseConnection`. -/
def stopListening (p : Port) : Port × Option Nat :=
  if p.connected then
    let id := p.nextDeferredId
    (loseConnection { p with d := some id, nextDeferredId := id + 1 }, some id)
  else
    (loseConnection p, none)

/-- Modelled from the spec: `base.BasePort.connectionLost` (the base-class
teardown, not among the sources at hand) deregisters the descriptor from
readiness notifications and marks the port closed (`connected = 0`). -/
def basePortConnectionLost (p : Port) : Port :=
  { p with reading := false, connected := false }

/-- udp.py lines 371-385, `Port.connectionLost`.  Clears the real port
number, sets `maxThroughput` to `-1`, runs the base-class teardown, calls
`protocol.doStop()`, closes and deletes the socket, and resolves the
stored deferred if one is present.  If the `socket` attribute has already
been deleted by an earlier run, `self.socket.close()` raises
`AttributeError` — the returned flag is `true` in that case, and the
mutations made before the raise persist. -/
def connectionLost (p : Port) : Port × Bool :=
  let q := { p with realPortNumber := none, maxThroughput := -1 }
  let q := basePortConnectionLost q
  let q := { q with doStopCount := q.doStopCount + 1 }
  if q.hasSocket then
    let q := { q with hasSocket := false }
    match q.d with
    | some id => ({ q with resolved := q.resolved ++ [id], d := none }, false)
    | none => (q, false)
  else
    (q, true)

/-- The reactor running one scheduled zero-delay `connectionLost` call, if
any is pending.  The flag reports whether that call raised. -/
def runNextScheduled (p : Port) : Port × Bool :=
  if 0 < p.scheduledTeardowns then
    connectionLost { p with scheduledTeardowns := p.scheduledTeardowns - 1 }
  else
    (p, false)

-- Total length of a list of datagrams.
def sumLen : List Datagram → Nat
  | [] => 0
  | d :: ds => d.len + sumLen ds

-- Number of datagrams whose protocol callback raises.
def countBad : List Datagram → Nat
  | [] => 0
  | d :: ds => (if d.bad then 1 else 0) + countBad ds

/-- Checks that every datagram in a queue of receive outcomes is at most
`mps` bytes long — the guarantee `recvfrom(self.maxPacketSize)` gives. -/
def lensWithin (mps : Nat) : List RecvItem → Bool
  | [] => true
  | .dgram d :: rest => decide (d.len ≤ mps) && lensWithin mps rest
  | .err _ :: rest => lensWithin mps rest

/-- A port in the listening state, as left by `startListening` on an
IPv4 wildcard interface: used as a concrete evaluation point. -/
def examplePort : Port where
  addressFamily := Family.afInet
  maxThroughput := 262144
  maxPacketSize := 8192
  interface := Host.empty
  connectedAddr := none
  connected := true
  realPortNumber := some 1234
  reading := true
  hasSocket := true
  d := none
  nextDeferredId := 0
  resolved := []
  doStopCount := 0
  scheduledTeardowns := 0
  osConnects := 0

/-- A listening port bound to an IPv6 interface. -/
def examplePort6 : Port :=
  { examplePort with addressFamily := Family.afInet6, interface := Host.ipv6 }

/-- A listening port with a configured peer (connected mode). -/
def exampleConnectedPort : Port :=
  { examplePort with connectedAddr := some (Host.ipv4, 53), osConnects := 1 }

/-- 33 queued datagrams of 8192 bytes: the first 32 already fill the
default 262144-byte budget exactly. -/
def budgetQueue : List Datagram := List.replicate 33 ⟨8192, false⟩

/-- 32 queued datagrams of 8191 bytes followed by one of 8192 bytes: every
proper initial segment is under the 262144-byte budget, yet the total
270304 exceeds it. -/
def overshootQueue : List Datagram :=
  List.replicate 32 ⟨8191, false⟩ ++ [⟨8192, false⟩]

/-- Structure of one `doRead` invocation on a queue that holds only
datagrams (no receive errors): some initial segment of `k` datagrams is
dispatched in order, the rest stays queued, no error is raised or
notified, every protocol-callback failure among the dispatched datagrams
is logged, the budget was strictly unexhausted before each receive, and
the drain stopped early only because the budget was reached. -/
theorem doReadAux_dgrams (c : Bool) (maxT : Int) (ds : List Datagram) :
    ∀ read : Int,
      ∃ k, k ≤ ds.length ∧
        (doReadAux c maxT (ds.map RecvItem.dgram) read).dispatched = ds.take k ∧
        (doReadAux c maxT (ds.map RecvItem.dgram) read).remaining
          = (ds.drop k).map RecvItem.dgram ∧
        (doReadAux c maxT (ds.map RecvItem.dgram) read).fatal = none ∧
        (doReadAux c maxT (ds.map RecvItem.dgram) read).refused = 0 ∧
        (doReadAux c maxT (ds.map RecvItem.dgram) read).logged = countBad (ds.take k) ∧
        (∀ j, j < k → read + (sumLen (ds.take j) : Int) < maxT) ∧
        (k < ds.length → maxT ≤ read + (sumLen (ds.take k) : Int)) := by
  induction ds with
  | nil =>
      intro read
      exact ⟨0, by simp [doReadAux, countBad]⟩
  | cons d tl ih =>
      intro read
      by_cases hlt : read < maxT
      · obtain ⟨k, hk, h1, h2, h3, h4, h5, h6, h7⟩ := ih (read + (d.len : Int))
        refine ⟨k + 1, by simpa using hk, ?_, ?_, ?_, ?_, ?_, ?_, ?_⟩
        · simp [doReadAux, hlt, h1, List.take_succ_cons]
        · simp [doReadAux, hlt, h2, List.drop_succ_cons]
        · simp [doReadAux, hlt, h3]
        · simp [doReadAux, hlt, h4]
        · simp [doReadAux, hlt, h5, List.take_succ_cons, countBad]
        · intro j hj
          cases j with
          | zero => simpa [sumLen] using hlt
          | succ j2 =>
              have := h6 j2 (by omega)
              simp only [List.take_succ_cons, sumLen] at *
              push_cast at *
              omega
        · intro hlen
          have := h7 (by simpa using hlen)
          simp only [List.take_succ_cons, sumLen] at *
          push_cast at *
          omega
      · refine ⟨0, by simp, ?_, ?_, ?_, ?_, ?_, ?_, ?_⟩
        · simp [doReadAux, hlt]
        · simp [doReadAux, hlt]
        · simp [doReadAux, hlt]
        · simp [doReadAux, hlt]
        · simp [doReadAux, hlt, countBad]
        · intro j hj
          omega
        · intro _
          simp [sumLen]
          omega


/-- Claim C8: during a drain, a protocol receive callback that raises is
caught, logged, and draining continues with the next datagram: on a queue
of datagrams the invocation never raises, dispatches an initial segment of
the queue regardless of which callbacks fail, logs exactly the failing
callbacks among the dispatched datagrams, and stops short of the whole
queue only when the throughput budget has been reached — never because a
callback failed. -/
theorem doRead_bad_callback_isolated (p : Port) (ds : List Datagram) :
    ∃ k, k ≤ ds.length ∧
      (doRead p (ds.map RecvItem.dgram)).fatal = none ∧
      (doRead p (ds.map RecvItem.dgram)).dispatched = ds.take k ∧
      (doRead p (ds.map RecvItem.dgram)).remaining = (ds.drop k).map RecvItem.dgram ∧
      (doRead p (ds.map RecvItem.dgram)).logged = countBad (ds.take k) ∧
      (k = ds.length ∨ p.maxThroughput ≤ (sumLen (ds.take k) : Int)) := by
  obtain ⟨k, hk, h1, h2, h3, h4, h5, h6, h7⟩ :=
    doReadAux_dgrams p.connectedAddr.isSome p.maxThroughput ds 0
  refine ⟨k, hk, h3, h1, h2, h5, ?_⟩
  rcases eq_or_lt_of_le hk with he | hl
  · exact Or.inl he
  · exact Or.inr (by simpa using h7 hl)

/-- Claim C2 (amended): if some initial segment of the queued datagrams
strictly shorter than the whole queue already has cumulative size at least
`maxThroughput`, then one `doRead` invocation dispatches only an initial
segment strictly shorter than the queue and leaves the nonempty remainder
queued for the next invocation.  (Cumulative size merely exceeding the
budget does not suffice: the budget is checked before each receive, so the
final receive may overshoot it and drain the whole queue.) -/
theorem doRead_budget_leaves_remainder (p : Port) (ds : List Datagram)
    (hex : ∃ j, j < ds.length ∧ p.maxThroughput ≤ (sumLen (ds.take j) : Int)) :
    ∃ k, k < ds.length ∧
      (doRead p (ds.map RecvItem.dgram)).dispatched = ds.take k ∧
      (doRead p (ds.map RecvItem.dgram)).remaining = (ds.drop k).map RecvItem.dgram ∧
      (doRead p (ds.map RecvItem.dgram)).remaining ≠ [] := by
  obtain ⟨j, hj, hsum⟩ := hex
  obtain ⟨k, hk, h1, h2, h3, h4, h5, h6, h7⟩ :=
    doReadAux_dgrams p.connectedAddr.isSome p.maxThroughput ds 0
  have hklt : k < ds.length := by
    by_contra hge
    have hkeq : k = ds.length := le_antisymm hk (le_of_not_lt hge)
    have := h6 j (by omega)
    simp only [zero_add] at this
    exact absurd hsum (not_le.mpr this)
  refine ⟨k, hklt, h1, h2, ?_⟩
  simp only [doRead]
  rw [h2]
  have : ds.drop k ≠ [] := by
    intro hnil
    have := List.drop_eq_nil_iff.mp hnil
    omega
  intro hmapnil
  exact this (List.map_eq_nil_iff.mp hmapnil)

/-- Claim C2 witness: the amended theorem applied to a listening port and
33 maximum-size datagrams, of which the first 32 fill the budget. -/
theorem doRead_budget_leaves_remainder_witness :
    (∃ j, j < budgetQueue.length ∧
        examplePort.maxThroughput ≤ (sumLen (budgetQueue.take j) : Int)) ∧
    (∃ k, k < budgetQueue.length ∧
      (doRead examplePort (budgetQueue.map RecvItem.dgram)).dispatched
        = budgetQueue.take k ∧
      (doRead examplePort (budgetQueue.map RecvItem.dgram)).remaining
        = (budgetQueue.drop k).map RecvItem.dgram ∧
      (doRead examplePort (budgetQueue.map RecvItem.dgram)).remaining ≠ []) :=
  ⟨⟨32, by decide, by decide⟩,
   doRead_budget_leaves_remainder examplePort budgetQueue ⟨32, by decide, by decide⟩⟩

/-- Claim C2 counterexample: 33 queued datagrams, each within
`maxPacketSize`, whose cumulative size 270304 exceeds the 262144-byte
budget, yet one `doRead` invocation dispatches all of them and leaves
nothing queued — not a proper initial segment. -/
theorem doRead_exceeds_budget_drains_all :
    examplePort.maxThroughput < (sumLen overshootQueue : Int) ∧
    lensWithin examplePort.maxPacketSize (overshootQueue.map RecvItem.dgram) = true ∧
    (doRead examplePort (overshootQueue.map RecvItem.dgram)).dispatched
      = overshootQueue ∧
    (doRead examplePort (overshootQueue.map RecvItem.dgram)).remaining = [] := by
  decide

/-- Claim C3 (amended): during one `doRead` invocation, a transient
(Ignorable) receive error ends the drain loop without raising an error;
but a zero-length datagram does not end the loop — it is dispatched to
the protocol and draining continues with the remaining queue. -/
theorem doRead_ignorable_ends_drain (c : Bool) (maxT read : Int)
    (no : Nat) (rest : List RecvItem) (d : Datagram)
    (hig : no ∈ sockErrReadIgnore)
    (hr : read < maxT) (hlen : d.len = 0) :
    doReadAux c maxT (RecvItem.err no :: rest) read =
      { dispatched := [], logged := 0, refused := 0, fatal := none,
        remaining := rest } ∧
    doReadAux c maxT (RecvItem.dgram d :: rest) read =
      { doReadAux c maxT rest read with
          dispatched := d :: (doReadAux c maxT rest read).dispatched,
          logged := (if d.bad then 1 else 0) + (doReadAux c maxT rest read).logged } := by
  constructor
  · simp [doReadAux, hr, hig]
  · simp [doReadAux, hr, hlen]

/-- Claim C3 witness: the theorem applied at `EAGAIN` and at a concrete
zero-length datagram followed by a nonempty rest. -/
theorem doRead_ignorable_ends_drain_witness :
    EAGAIN ∈ sockErrReadIgnore ∧
    ((0 : Int) < 262144) ∧
    (Datagram.mk 0 false).len = 0 ∧
    (doReadAux false 262144 [RecvItem.err EAGAIN, RecvItem.dgram ⟨5, false⟩] 0 =
      { dispatched := [], logged := 0, refused := 0, fatal := none,
        remaining := [RecvItem.dgram ⟨5, false⟩] } ∧
     doReadAux false 262144 [RecvItem.dgram ⟨0, false⟩, RecvItem.dgram ⟨5, false⟩] 0 =
      { doReadAux false 262144 [RecvItem.dgram ⟨5, false⟩] 0 with
          dispatched := Datagram.mk 0 false
            :: (doReadAux false 262144 [RecvItem.dgram ⟨5, false⟩] 0).dispatched,
          logged := (if (Datagram.mk 0 false).bad then 1 else 0)
            + (doReadAux false 262144 [RecvItem.dgram ⟨5, false⟩] 0).logged }) :=
  ⟨by decide, by decide, by decide,
   doRead_ignorable_ends_drain false 262144 0 EAGAIN [RecvItem.dgram ⟨5, false⟩]
     ⟨0, false⟩ (by decide) (by decide) (by decide)⟩

/-- Claim C3 counterexample: with a zero-length datagram at the head of
the queue, `doRead` dispatches it and the drain continues — the following
datagram is dispatched in the same invocation, so a zero-length datagram
does not end the drain loop. -/
theorem doRead_zero_length_continues_drain :
    (doRead examplePort
        [RecvItem.dgram ⟨0, false⟩, RecvItem.dgram ⟨5, false⟩]).dispatched
      = [⟨0, false⟩, ⟨5, false⟩] ∧
    (doRead examplePort
        [RecvItem.dgram ⟨0, false⟩, RecvItem.dgram ⟨5, false⟩]).remaining = [] ∧
    (doRead examplePort
        [RecvItem.dgram ⟨0, false⟩, RecvItem.dgram ⟨5, false⟩]).fatal = none := by
  decide

/-- Claim C7: during the read-readiness callback, an errno in the refused
table invokes the protocol's refusal callback exactly when the port is in
connected mode — in unconnected mode the drain ends silently — and an
errno in neither the ignorable nor the refused table is re-raised out of
the callback unchanged, never swallowed. -/
theorem doRead_fatal_propagates_refused_connected_only
    (c : Bool) (maxT read : Int) (no : Nat) (rest : List RecvItem)
    (hr : read < maxT) :
    (no ∉ sockErrReadIgnore → no ∉ sockErrReadRefuse →
      doReadAux c maxT (RecvItem.err no :: rest) read =
        { dispatched := [], logged := 0, refused := 0, fatal := some no,
          remaining := rest }) ∧
    (no ∉ sockErrReadIgnore → no ∈ sockErrReadRefuse →
      doReadAux c maxT (RecvItem.err no :: rest) read =
        { dispatched := [], logged := 0, refused := if c then 1 else 0,
          fatal := none, remaining := rest }) := by
  constructor
  · intro h1 h2
    simp [doReadAux, hr, h1, h2]
  · intro h1 h2
    simp [doReadAux, hr, h1, h2]

/-- Claim C7 witness: errno 1 (`EPERM`, in neither table) is re-raised;
errno 111 (`ECONNREFUSED`) notifies refusal on a connected port and is
silent on an unconnected one. -/
theorem doRead_fatal_propagates_refused_connected_only_witness :
    ((0 : Int) < 262144) ∧
    (doReadAux true 262144 [RecvItem.err 1] 0 =
      { dispatched := [], logged := 0, refused := 0, fatal := some 1,
        remaining := [] } ∧
     doReadAux true 262144 [RecvItem.err 111] 0 =
      { dispatched := [], logged := 0, refused := 1, fatal := none,
        remaining := [] } ∧
     doReadAux false 262144 [RecvItem.err 111] 0 =
      { dispatched := [], logged := 0, refused := 0, fatal := none,
        remaining := [] }) :=
  ⟨by decide,
   (doRead_fatal_propagates_refused_connected_only true 262144 0 1 []
      (by decide)).1 (by decide) (by decide),
   (doRead_fatal_propagates_refused_connected_only true 262144 0 111 []
      (by decide)).2 (by decide) (by decide),
   (doRead_fatal_propagates_refused_connected_only false 262144 0 111 []
      (by decide)).2 (by decide) (by decide)⟩

/-- Bytes accumulated by the drain loop stay below `maxThroughput` plus
one maximum packet, by induction along the receive queue. -/
theorem doReadAux_dispatch_bound (c : Bool) (maxT : Int) (mps : Nat)
    (q : List RecvItem) :
    ∀ read : Int, lensWithin mps q = true → read < maxT + mps →
      (sumLen (doReadAux c maxT q read).dispatched : Int) + read < maxT + mps := by
  induction q with
  | nil =>
      intro read _ hread
      simpa [doReadAux, sumLen] using hread
  | cons item rest ih =>
      intro read hlen hread
      by_cases hlt : read < maxT
      · cases item with
        | err no =>
            by_cases h1 : no ∈ sockErrReadIgnore
            · simpa [doReadAux, hlt, h1, sumLen] using hread
            · by_cases h2 : no ∈ sockErrReadRefuse
              · simpa [doReadAux, hlt, h1, h2, sumLen] using hread
              · simpa [doReadAux, hlt, h1, h2, sumLen] using hread
        | dgram d =>
            simp only [lensWithin, Bool.and_eq_true, decide_eq_true_eq] at hlen
            have hrec := ih (read + (d.len : Int)) hlen.2 (by omega)
            simp only [doReadAux, if_pos hlt, sumLen]
            push_cast at *
            omega
      · simpa [doReadAux, hlt, sumLen] using hread

/-- Claim C10: in one `doRead` invocation on a listening port (positive
throughput budget), with every queued datagram at most `maxPacketSize`
bytes (which `recvfrom(maxPacketSize)` guarantees), the total bytes
dispatched to the protocol are strictly less than
`maxThroughput + maxPacketSize`: the budget check precedes each receive,
so the accumulated bytes can exceed `maxThroughput`, but only by less than
one maximum-size packet. -/
theorem doRead_dispatch_bound (p : Port) (queue : List RecvItem)
    (hpos : 0 < p.maxThroughput)
    (hlen : lensWithin p.maxPacketSize queue = true) :
    (sumLen (doRead p queue).dispatched : Int)
      < p.maxThroughput + p.maxPacketSize := by
  have h := doReadAux_dispatch_bound p.connectedAddr.isSome p.maxThroughput
    p.maxPacketSize queue 0 hlen (by omega)
  simpa using h

/-- Claim C10 witness: one maximum-size datagram on the example port. -/
theorem doRead_dispatch_bound_witness :
    (0 : Int) < examplePort.maxThroughput ∧
    lensWithin examplePort.maxPacketSize [RecvItem.dgram ⟨8192, false⟩] = true ∧
    (sumLen (doRead examplePort [RecvItem.dgram ⟨8192, false⟩]).dispatched : Int)
      < examplePort.maxThroughput + examplePort.maxPacketSize :=
  ⟨by decide, by decide,
   doRead_dispatch_bound examplePort [RecvItem.dgram ⟨8192, false⟩]
     (by decide) (by decide)⟩

/-- Claim C4: classification of `OSError` on the write path, in both send
loops (connected `send`, unconnected `sendto`): `EINTR` retries the
identical send immediately; `EMSGSIZE` raises the oversized-datagram
error; `ECONNREFUSED` in connected mode invokes the protocol's
`connectionRefused` callback and the call returns normally (`None`, no
exception); `ECONNREFUSED` in unconnected mode is swallowed and the call
returns normally; any other errno is re-raised to the caller unchanged.
The final conjunct ties the connected-mode loop to `write` itself. -/
theorem write_error_classification (rest attempts : List SendResult)
    (no calls : Nat) (m : Bool)
    (hno1 : no ≠ EINTR) (hno2 : no ≠ EMSGSIZE) (hno3 : no ≠ ECONNREFUSED) :
    (sendAttempts m (SendResult.err EINTR :: rest) calls
        = sendAttempts m rest (calls + 1)) ∧
    (sendAttempts m (SendResult.err EMSGSIZE :: rest) calls
        = some { ret := none, refusedNotified := false,
                 raised := some WriteError.messageLength, osCalls := calls + 1 }) ∧
    (sendAttempts true (SendResult.err ECONNREFUSED :: rest) calls
        = some { ret := none, refusedNotified := true, raised := none,
                 osCalls := calls + 1 }) ∧
    (sendAttempts false (SendResult.err ECONNREFUSED :: rest) calls
        = some { ret := none, refusedNotified := false, raised := none,
                 osCalls := calls + 1 }) ∧
    (sendAttempts m (SendResult.err no :: rest) calls
        = some { ret := none, refusedNotified := false,
                 raised := some (WriteError.osError no), osCalls := calls + 1 }) ∧
    (∀ p peer, p.connectedAddr = some peer →
        write p none attempts = sendAttempts true attempts 0) := by
  refine ⟨?_, ?_, ?_, ?_, ?_, ?_⟩
  · simp [sendAttempts]
  · simp [sendAttempts, EMSGSIZE, EINTR]
  · simp [sendAttempts, ECONNREFUSED, EINTR, EMSGSIZE]
  · simp [sendAttempts, ECONNREFUSED, EINTR, EMSGSIZE]
  · simp [sendAttempts, hno1, hno2, hno3]
  · intro p peer hp
    simp [write, hp]

/-- Claim C4 witness: errno 13 (`EACCES`, none of the three special
codes) is re-raised unchanged, and a connected-mode `write` runs the
connected send loop. -/
theorem write_error_classification_witness :
    (13 ≠ EINTR ∧ 13 ≠ EMSGSIZE ∧ 13 ≠ ECONNREFUSED) ∧
    sendAttempts true [SendResult.err 13] 0
      = some { ret := none, refusedNotified := false,
               raised := some (WriteError.osError 13), osCalls := 1 } ∧
    write exampleConnectedPort none [SendResult.ok 3]
      = sendAttempts true [SendResult.ok 3] 0 :=
  ⟨⟨by decide, by decide, by decide⟩,
   (write_error_classification [] [SendResult.ok 3] 13 0 true
      (by decide) (by decide) (by decide)).2.2.2.2.1,
   (write_error_classification [] [SendResult.ok 3] 13 0 true
      (by decide) (by decide) (by decide)).2.2.2.2.2
     exampleConnectedPort (Host.ipv4, 53) rfl⟩

/-- Claim C5: unconnected-mode destination validation in `write`: a host
that is neither an IPv4 literal, nor an IPv6 literal, nor the broadcast
sentinel fails with the invalid-address error before any OS send is
attempted (zero OS calls); an IPv4 literal or the broadcast sentinel on
an IPv6-family port fails likewise; an IPv6 literal on an IPv4-family
port fails likewise; an IPv6 literal on an IPv6-family port passes
validation and is sent. -/
theorem write_unconnected_address_validation (p : Port) (h : Host)
    (port n : Nat) (attempts : List SendResult)
    (hp : p.connectedAddr = none) :
    (isIPAddress h = false → isIPv6Address h = false → isBroadcast h = false →
      write p (some (h, port)) attempts
        = some { ret := none, refusedNotified := false,
                 raised := some (WriteError.invalidAddress h), osCalls := 0 }) ∧
    (p.addressFamily = Family.afInet6 →
      (isIPAddress h = true ∨ isBroadcast h = true) →
      write p (some (h, port)) attempts
        = some { ret := none, refusedNotified := false,
                 raised := some (WriteError.invalidAddress h), osCalls := 0 }) ∧
    (p.addressFamily = Family.afInet → isIPv6Address h = true →
      write p (some (h, port)) attempts
        = some { ret := none, refusedNotified := false,
                 raised := some (WriteError.invalidAddress h), osCalls := 0 }) ∧
    (p.addressFamily = Family.afInet6 → isIPv6Address h = true →
      write p (some (h, port)) [SendResult.ok n]
        = some { ret := some n, refusedNotified := false, raised := none,
                 osCalls := 1 }) := by
  refine ⟨?_, ?_, ?_, ?_⟩
  · intro h1 h2 h3
    simp [write, hp, h1, h2, h3]
  · intro hfam hor
    rcases hor with h4 | h4 <;> simp [write, hp, hfam, h4]
  · intro hfam h6
    simp [write, hp, hfam, h6]
  · intro hfam h6
    have hh : h = Host.ipv6 := by cases h <;> simp_all [isIPv6Address]
    subst hh
    simp [write, hp, hfam, isIPAddress, isIPv6Address, isBroadcast, sendAttempts]

/-- Claim C5 witness: on an IPv6-family unconnected port, a hostname and
an IPv4 literal are rejected with zero OS calls, and an IPv6 literal is
sent. -/
theorem write_unconnected_address_validation_witness :
    examplePort6.connectedAddr = none ∧
    write examplePort6 (some (Host.hostname, 53)) [SendResult.ok 4]
      = some { ret := none, refusedNotified := false,
               raised := some (WriteError.invalidAddress Host.hostname),
               osCalls := 0 } ∧
    write examplePort6 (some (Host.ipv4, 53)) [SendResult.ok 4]
      = some { ret := none, refusedNotified := false,
               raised := some (WriteError.invalidAddress Host.ipv4),
               osCalls := 0 } ∧
    write examplePort6 (some (Host.ipv6, 53)) [SendResult.ok 4]
      = some { ret := some 4, refusedNotified := false, raised := none,
               osCalls := 1 } :=
  ⟨rfl,
   (write_unconnected_address_validation examplePort6 Host.hostname 53 4
      [SendResult.ok 4] rfl).1 rfl rfl rfl,
   (write_unconnected_address_validation examplePort6 Host.ipv4 53 4
      [SendResult.ok 4] rfl).2.1 rfl (Or.inl rfl),
   (write_unconnected_address_validation examplePort6 Host.ipv6 53 4
      [SendResult.ok 4] rfl).2.2.2 rfl rfl⟩

/-- Claim C6: `connect` succeeds at most once per port: a second call on
a port that already has a configured peer fails and performs no OS-level
reconnect (the state, including the count of OS connect calls, is
returned unchanged); and the host literal is validated before the peer is
recorded, so `connect` with a non-literal host fails with the
invalid-address error and leaves the port unchanged and unconnected. -/
theorem connect_once_validates_host (p : Port) (h h2 : Host) (n n2 : Nat)
    (hp : p.connectedAddr = none) :
    ((isIPAddress h = true ∨ isIPv6Address h = true) →
      (connect p h n).2 = none ∧
      (connect p h n).1.connectedAddr = some (h, n) ∧
      (connect p h n).1.osConnects = p.osConnects + 1 ∧
      connect (connect p h n).1 h2 n2
        = ((connect p h n).1, some ConnectError.alreadyConnected)) ∧
    (isIPAddress h = false → isIPv6Address h = false →
      connect p h n = (p, some ConnectError.invalidAddress)) := by
  constructor
  · intro hor
    rcases hor with h4 | h4 <;> simp [connect, hp, h4]
  · intro h4 h5
    simp [connect, hp, h4, h5]

/-- Claim C6 witness: a first `connect` to an IPv4 literal succeeds and a
second call fails without touching the state; `connect` to a hostname
fails leaving the port unconnected. -/
theorem connect_once_validates_host_witness :
    examplePort.connectedAddr = none ∧
    ((connect examplePort Host.ipv4 53).2 = none ∧
     (connect examplePort Host.ipv4 53).1.connectedAddr = some (Host.ipv4, 53) ∧
     (connect examplePort Host.ipv4 53).1.osConnects = examplePort.osConnects + 1 ∧
     connect (connect examplePort Host.ipv4 53).1 Host.ipv6 99
       = ((connect examplePort Host.ipv4 53).1, some ConnectError.alreadyConnected)) ∧
    connect examplePort Host.hostname 53
      = (examplePort, some ConnectError.invalidAddress) :=
  ⟨rfl,
   (connect_once_validates_host examplePort Host.ipv4 Host.ipv6 53 99 rfl).1
     (Or.inl rfl),
   (connect_once_validates_host examplePort Host.hostname Host.ipv6 53 99 rfl).2
     rfl rfl⟩

/-- Teardown never touches the address family. -/
theorem connectionLost_addressFamily (p : Port) :
    (connectionLost p).1.addressFamily = p.addressFamily := by
  simp only [connectionLost, basePortConnectionLost]
  split
  · split <;> rfl
  · rfl

/-- Claim C9: the address family derived from the interface string at
construction: an IPv6 literal yields `AF_INET6`; an IPv4 literal or the
empty string yields `AF_INET` (the class default); any other non-empty
string (a hostname, or the broadcast sentinel) makes construction fail
with the invalid-address error.  Moreover no operation of the embedding
(`connect`, `stopListening`, teardown, a scheduled teardown) ever changes
`addressFamily` after construction. -/
theorem setAddressFamily_fixed_at_construction (p : Port) (h2 : Host) (n : Nat) :
    setAddressFamily Host.ipv6 = some Family.afInet6 ∧
    setAddressFamily Host.ipv4 = some Family.afInet ∧
    setAddressFamily Host.empty = some Family.afInet ∧
    setAddressFamily Host.hostname = none ∧
    setAddressFamily Host.broadcast = none ∧
    (connect p h2 n).1.addressFamily = p.addressFamily ∧
    (stopListening p).1.addressFamily = p.addressFamily ∧
    (connectionLost p).1.addressFamily = p.addressFamily ∧
    (runNextScheduled p).1.addressFamily = p.addressFamily := by
  refine ⟨by decide, by decide, by decide, by decide, by decide, ?_, ?_,
    connectionLost_addressFamily p, ?_⟩
  · unfold connect
    split
    · rfl
    · split
      · rfl
      · rfl
  · simp only [stopListening, loseConnection, stopReading]
    split <;> rfl
  · unfold runNextScheduled
    split
    · exact connectionLost_addressFamily _
    · rfl

/-- Claim C1 (amended): from the listening state, one `stopListening()`
call schedules exactly one teardown; running it performs the teardown
exactly once — the protocol's `doStop` fires once and the returned
completion handle resolves once, with no error — and a further
`stopListening()` after the teardown has run is a no-op that returns no
handle and schedules nothing.  (A second `stopListening()` issued before
the scheduled teardown has run is NOT a no-op: see the counterexample.) -/
theorem stopListening_single_teardown (p : Port)
    (hc : p.connected = true) (hs : p.hasSocket = true)
    (h0 : p.doStopCount = 0) (hr : p.resolved = [])
    (hsch : p.scheduledTeardowns = 0) :
    (stopListening p).2 = some p.nextDeferredId ∧
    (stopListening p).1.scheduledTeardowns = 1 ∧
    (runNextScheduled (stopListening p).1).2 = false ∧
    (runNextScheduled (stopListening p).1).1.doStopCount = 1 ∧
    (runNextScheduled (stopListening p).1).1.resolved = [p.nextDeferredId] ∧
    (runNextScheduled (stopListening p).1).1.scheduledTeardowns = 0 ∧
    (runNextScheduled (stopListening p).1).1.connected = false ∧
    (stopListening (runNextScheduled (stopListening p).1).1).2 = none ∧
    (stopListening (runNextScheduled (stopListening p).1).1).1
      = stopReading (runNextScheduled (stopListening p).1).1 := by
  simp [stopListening, loseConnection, stopReading, runNextScheduled,
        connectionLost, basePortConnectionLost, hc, hs, h0, hr, hsch]

/-- Claim C1 witness: the amended theorem evaluated on the listening
example port. -/
theorem stopListening_single_teardown_witness :
    (examplePort.connected = true ∧ examplePort.hasSocket = true ∧
     examplePort.doStopCount = 0 ∧
     examplePort.resolved = [] ∧ examplePort.scheduledTeardowns = 0) ∧
    ((stopListening examplePort).2 = some examplePort.nextDeferredId ∧
     (stopListening examplePort).1.scheduledTeardowns = 1 ∧
     (runNextScheduled (stopListening examplePort).1).2 = false ∧
     (runNextScheduled (stopListening examplePort).1).1.doStopCount = 1 ∧
     (runNextScheduled (stopListening examplePort).1).1.resolved
       = [examplePort.nextDeferredId] ∧
     (runNextScheduled (stopListening examplePort).1).1.scheduledTeardowns = 0 ∧
     (runNextScheduled (stopListening examplePort).1).1.connected = false ∧
     (stopListening (runNextScheduled (stopListening examplePort).1).1).2 = none ∧
     (stopListening (runNextScheduled (stopListening examplePort).1).1).1
       = stopReading (runNextScheduled (stopListening examplePort).1).1) :=
  ⟨⟨rfl, rfl, rfl, rfl, rfl⟩,
   stopListening_single_teardown examplePort rfl rfl rfl rfl rfl⟩

/-- Claim C1 counterexample: on a listening port, calling
`stopListening()` a second time before the scheduled teardown has run is
not a no-op: `self.connected` is still set, so the second call returns a
fresh deferred (overwriting the first in `self.d`) and schedules a second
teardown.  Running the two scheduled teardowns fires the protocol's
`doStop` twice, resolves only the second handle — the first handle never
resolves — and the second teardown raises on the already-deleted
socket. -/
theorem stopListening_double_call_not_noop :
    (stopListening examplePort).2 = some 0 ∧
    (stopListening (stopListening examplePort).1).2 = some 1 ∧
    (stopListening (stopListening examplePort).1).1.scheduledTeardowns = 2 ∧
    (runNextScheduled (runNextScheduled
        (stopListening (stopListening examplePort).1).1).1).1.doStopCount = 2 ∧
    (runNextScheduled (runNextScheduled
        (stopListening (stopListening examplePort).1).1).1).1.resolved = [1] ∧
    (runNextScheduled (runNextScheduled
        (stopListening (stopListening examplePort).1).1).1).2 = true := by
  decide

end TwistedUdp
